import Mathlib

/-!
Verification development for the panverse generation pipeline: a shallow
embedding of the content-integrity watchdog, the content cache, the
Claude client wrapper, the campaign orchestrator and the monitoring
service, together with theorems settling the frozen specification claims.

Modelling conventions:
* Python strings are Lean `String`; character-level operations (`lower`,
  `strip`, `split`, substring `in`) are defined on `String.data`
  (`List Char`) mirroring Python semantics for the ASCII inputs the
  claims use.
* Fallible Python code (functions that may `raise`) is embedded as
  `Except`.
* Wall-clock instants are `Nat` (seconds); `datetime.now()` becomes an
  explicit `now` parameter.
* Python monetary floats become `Rat`; the claims only use values that
  are exact in both representations.
-/

set_option maxRecDepth 200000

/-- Python `pattern in text` on character lists (contiguous-substring test). -/
def containsSub (pat : List Char) : List Char → Bool
  | [] => pat.isEmpty
  | c :: t => pat.isPrefixOf (c :: t) || containsSub pat t

/-- Python `str.lower()` (ASCII range, as used by every input in the claims). -/
def lowerStr (s : String) : String := String.mk (s.data.map Char.toLower)

/-- Python `pat in text` on strings. -/
def substrOf (pat s : String) : Bool := containsSub pat.data s.data

/-- Strip leading and trailing whitespace from a character list (Python `str.strip()`). -/
def stripList (l : List Char) : List Char :=
  ((l.dropWhile Char.isWhitespace).reverse.dropWhile Char.isWhitespace).reverse

/-- Length of `content.strip()` in characters. -/
def stripLen (s : String) : Nat := (stripList s.data).length

/-- Helper for Python `str.split()`: accumulate the current word while walking the text. -/
def wordsAux : List Char → List Char → List (List Char)
  | [], acc => if acc.isEmpty then [] else [acc.reverse]
  | c :: rest, acc =>
    if c.isWhitespace then
      if acc.isEmpty then wordsAux rest [] else acc.reverse :: wordsAux rest []
    else wordsAux rest (c :: acc)

/-- Python `str.split()` with no separator: maximal runs of non-whitespace. -/
def pyWords (s : String) : List (List Char) := wordsAux s.data []

/-- `len(set(content.lower().split()))`: number of distinct lowercase words. -/
def distinctWordCount (s : String) : Nat := (pyWords (lowerStr s)).dedup.length

/-- `True` exactly on the `Except.error` constructor (a Python `raise`). -/
def isError {ε α : Type} : Except ε α → Bool
  | .error _ => true
  | .ok _ => false

instance {ε α : Type} [DecidableEq ε] [DecidableEq α] : DecidableEq (Except ε α) := fun
  | .error a, .error b =>
      if h : a = b then .isTrue (by simp [h]) else .isFalse (by simp [h])
  | .ok a, .ok b =>
      if h : a = b then .isTrue (by simp [h]) else .isFalse (by simp [h])
  | .error _, .ok _ => .isFalse (by simp)
  | .ok _, .error _ => .isFalse (by simp)

/-- `dict.get(k)`: first binding of a key in an insertion-ordered association list. -/
def dictGet {α : Type} : List (String × α) → String → Option α
  | [], _ => none
  | (k', v) :: t, k => if k' = k then some v else dictGet t k

/-- `dict[k] = v`: replace the binding in place, else append (Python insertion order). -/
def dictSet {α : Type} : List (String × α) → String → α → List (String × α)
  | [], k, v => [(k, v)]
  | (k', v') :: t, k, v => if k' = k then (k, v) :: t else (k', v') :: dictSet t k v

namespace ContentIntegrityWatchdog

/-- `self.forbidden_patterns` from `ContentIntegrityWatchdog.__init__`. -/
def forbidden_patterns : List String :=
  ["placeholder", "mock", "sample text", "lorem ipsum", "example",
   "would be", "will contain", "to be filled", "[content]", "content here",
   "would go here", "to be generated", "will be filled", "example content",
   "template", "dummy", "fake", "coming soon", "tbd", "todo",
   "to be determined", "sample data", "test content", "demo",
   "illustration of", "example of", "placeholder text",
   "insert content", "replace with", "fill in", "add here",
   "content goes here", "your content", "sample campaign",
   "generic", "standard template", "boilerplate"]

/-- `self.min_section_lengths` from `ContentIntegrityWatchdog.__init__`. -/
def min_section_lengths : List (String × Nat) :=
  [("description", 100), ("introduction", 200), ("setting", 300),
   ("background", 300), ("structure", 200), ("location", 200),
   ("npc", 150), ("encounter", 200), ("plot", 300), ("treasure", 150),
   ("appendix", 100), ("campaign_concept", 150), ("story_arc", 100),
   ("default", 100)]

/-- `self.min_section_lengths.get(section_name.lower(), self.min_section_lengths["default"])`. -/
def min_section_length (section_name : String) : Nat :=
  (dictGet min_section_lengths (lowerStr section_name)).getD 100

/-- `self.forbidden_image_patterns` from `ContentIntegrityWatchdog.__init__`. -/
def forbidden_image_patterns : List String :=
  ["placeholder", "mock", "example", "sample", "test", "dummy",
   "generic", "template", "illustration of", "example of",
   "coming soon", "to be generated", "placeholder image"]

/-- The `ContentIntegrityError` raised by the watchdog, one constructor per
`raise` site of `validate_text_content` / `validate_image_prompt` /
`validate_campaign_concept`. -/
inductive CIError : Type
  | emptyContent (sectionName : String)
  | forbiddenPattern (pattern sectionName : String)
  | tooShort (sectionName : String) (lengthSeen minLength : Nat)
  | lacksVariety (sectionName : String)
  | emptyImagePrompt
  | forbiddenImagePattern (pattern : String)
  | imagePromptTooShort (lengthSeen : Nat)
  | imagePromptTemplateMarker
  | invalidConceptFormat
  | conceptMissingField (field : String)
  deriving DecidableEq, Repr

/-- The f-string message carried by each `ContentIntegrityError` (single-quote
characters around interpolated values are omitted; the claims only observe
which words the message mentions). -/
def CIError.message : CIError → String
  | .emptyContent s =>
      "CRITICAL: Empty or invalid content for section " ++ s ++
      ". ALL content must be real AI-generated text."
  | .forbiddenPattern p s =>
      "CRITICAL: Found forbidden pattern " ++ p ++
      " indicating mock content in section " ++ s ++ ". ALL output must be real content."
  | .tooShort s n m =>
      "CRITICAL: Content for " ++ s ++ " is suspiciously short (" ++ toString n ++
      " chars). Minimum expected: " ++ toString m ++
      " chars. This suggests incomplete or mock content."
  | .lacksVariety s =>
      "CRITICAL: Content for " ++ s ++
      " lacks sufficient variety. This suggests template or boilerplate content."
  | .emptyImagePrompt =>
      "CRITICAL: Empty or invalid image prompt. ALL image prompts must be real and descriptive."
  | .forbiddenImagePattern p =>
      "CRITICAL: Image prompt contains forbidden pattern " ++ p ++
      " suggesting mock/placeholder image generation."
  | .imagePromptTooShort n =>
      "CRITICAL: Image prompt is too short (" ++ toString n ++
      " chars). Image prompts must be descriptive and specific."
  | .imagePromptTemplateMarker =>
      "CRITICAL: Image prompt contains template markers. Image prompts must be complete and real."
  | .invalidConceptFormat => "CRITICAL: Invalid campaign concept format"
  | .conceptMissingField f => "CRITICAL: Campaign concept missing required field " ++ f

/-- First forbidden pattern (in list order) whose lowercase form occurs in the
lowercased content — the pattern the Python for-loop raises on. -/
def findForbidden (patterns : List String) (contentLower : String) : Option String :=
  patterns.find? fun p => containsSub (lowerStr p).data contentLower.data

/-- `ContentIntegrityWatchdog.validate_text_content(section_name, content)`.
Checks run in source order: inactive short-circuit, empty content, forbidden
patterns, minimum stripped length, word variety. The Python `not
isinstance(content, str)` arm is unrepresentable (arguments are typed). -/
def validate_text_content (is_active : Bool) (section_name content : String) :
    Except CIError Bool :=
  if !is_active then .ok true
  else if content = "" then .error (.emptyContent section_name)
  else
    match findForbidden forbidden_patterns (lowerStr content) with
    | some p => .error (.forbiddenPattern p section_name)
    | none =>
      if stripLen content < min_section_length section_name then
        .error (.tooShort section_name content.length (min_section_length section_name))
      else if distinctWordCount content < 5 then
        .error (.lacksVariety section_name)
      else .ok true

/-- `ContentIntegrityWatchdog.validate_image_prompt(image_prompt)`. -/
def validate_image_prompt (is_active : Bool) (image_prompt : String) :
    Except CIError Bool :=
  if !is_active then .ok true
  else if image_prompt = "" then .error .emptyImagePrompt
  else
    match findForbidden forbidden_image_patterns (lowerStr image_prompt) with
    | some p => .error (.forbiddenImagePattern p)
    | none =>
      if stripLen image_prompt < 20 then
        .error (.imagePromptTooShort image_prompt.length)
      else if image_prompt.data.any fun c =>
          c = '[' || c = ']' || c = '\x7b' || c = '\x7d' || c = '<' || c = '>' then
        .error .imagePromptTemplateMarker
      else .ok true

end ContentIntegrityWatchdog

/-- `domain.value_objects.GenerationStatus` (the members the orchestrator uses). -/
inductive GenerationStatus : Type
  | generating
  | completed
  | failed
  deriving DecidableEq, Repr

/-- `domain.entities.CampaignSection`, restricted to the fields the validated
claims observe. `imagePrompts` collects the `"prompt"` values of the dict
entries of `section.images` (`validate_entire_campaign` only reads those);
`metadata` and timing fields are omitted, no claim observes them. -/
structure CampaignSection where
  section_id : String
  title : String
  content : String
  imagePrompts : List String
  deriving DecidableEq, Repr

/-- `domain.entities.Campaign`, restricted to the fields read by
`validate_entire_campaign` and the orchestrator claims: `name`,
`description`, `sections`, the player preferences freeform input, and
`status`. Theme/difficulty/NPk-list fields are carried by the real
entity but no validated claim observes them. -/
structure Campaign where
  name : String
  description : String
  sections : List CampaignSection
  playerFreeform : Option String
  status : GenerationStatus
  deriving DecidableEq, Repr

/-- The campaign-concept dict consumed by `validate_campaign_concept`:
`Option` marks a key that may be absent from the dict. -/
structure CampaignConcept where
  title : Option String
  description : Option String
  level_range : Option String
  subtitle : Option String
  deriving DecidableEq, Repr

namespace ContentIntegrityWatchdog

/-- Per-section body of the loop in `validate_entire_campaign`: validate the
section text, then every `"prompt"` entry of its images. -/
def validate_sections (is_active : Bool) : List CampaignSection → Except CIError Bool
  | [] => .ok true
  | s :: rest =>
    match validate_text_content is_active s.section_id s.content with
    | .error e => .error e
    | .ok _ =>
      match validate_prompt_list is_active s.imagePrompts with
      | .error e => .error e
      | .ok _ => validate_sections is_active rest
where
  /-- Inner loop over `section.images` entries carrying a `"prompt"` key. -/
  validate_prompt_list (is_active : Bool) : List String → Except CIError Bool
    | [] => .ok true
    | p :: rest =>
      match validate_image_prompt is_active p with
      | .error e => .error e
      | .ok _ => validate_prompt_list is_active rest

/-- `ContentIntegrityWatchdog.validate_entire_campaign(campaign)`: title,
description, every section (text then image prompts), then the player
freeform input when present and non-empty (the Python truthiness test). -/
def validate_entire_campaign (is_active : Bool) (c : Campaign) : Except CIError Bool :=
  if !is_active then .ok true
  else
    match validate_text_content is_active "campaign_title" c.name with
    | .error e => .error e
    | .ok _ =>
      match validate_text_content is_active "campaign_description" c.description with
      | .error e => .error e
      | .ok _ =>
        match validate_sections is_active c.sections with
        | .error e => .error e
        | .ok _ =>
          match c.playerFreeform with
          | some f =>
            if f ≠ "" then validate_text_content is_active "player_input" f else .ok true
          | none => .ok true

/-- `ContentIntegrityWatchdog.validate_campaign_concept(concept)`: required
keys `title`, `description`, `level_range`, then field-wise text validation
(subtitle only when the key is present). The `not isinstance(concept, dict)`
arm is unrepresentable in the typed model. -/
def validate_campaign_concept (is_active : Bool) (concept : CampaignConcept) : Except CIError Bool :=
  if !is_active then .ok true
  else if concept.title.isNone then .error (.conceptMissingField "title")
  else if concept.description.isNone then .error (.conceptMissingField "description")
  else if concept.level_range.isNone then .error (.conceptMissingField "level_range")
  else
    match validate_text_content is_active "concept_title" (concept.title.getD "") with
    | .error e => .error e
    | .ok _ =>
      match validate_text_content is_active "concept_description" (concept.description.getD "") with
      | .error e => .error e
      | .ok _ =>
        match concept.subtitle with
        | some sub => validate_text_content is_active "concept_subtitle" sub
        | none => .ok true

end ContentIntegrityWatchdog

/-- One value of the `ContentCacheService` JSON file for a key:
`{"content": value, "timestamp": now, "ttl_seconds": ttl, "expires_at": now + ttl}`
with instants as `Nat` seconds. -/
structure CacheData (α : Type) where
  content : α
  timestamp : Nat
  ttl_seconds : Nat
  expires_at : Nat
  deriving DecidableEq, Repr

/-- The cache directory keyed by the lookup key. The Python code addresses
the file as `md5(key).json`; the model treats the key-to-path map as
injective, which md5 is for every input in scope. -/
def CacheStore (α : Type) : Type := String → Option (CacheData α)

/-- A cache directory with no files. -/
def emptyCacheStore (α : Type) : CacheStore α := fun _ => none

namespace ContentCacheService

/-- `ContentCacheService.get(key)`: read the file and return its `"content"`
field. The source performs no expiry comparison and no deletion here, so
the model takes no clock argument. -/
def get {α : Type} (store : CacheStore α) (key : String) : Option α :=
  (store key).map (·.content)

/-- `ContentCacheService.set(key, value, ttl_seconds)`: overwrite the file
with content, creation timestamp and `expires_at = now + ttl`. The Python
method returns `True` unless the filesystem write fails, a failure mode
outside the model. -/
def set {α : Type} (store : CacheStore α) (now : Nat) (key : String) (value : α)
    (ttl_seconds : Nat) : CacheStore α :=
  fun k => if k = key then
    some { content := value, timestamp := now, ttl_seconds := ttl_seconds,
           expires_at := now + ttl_seconds }
  else store k

/-- `ContentCacheService.delete(key)`: unlink the file. -/
def delete {α : Type} (store : CacheStore α) (key : String) : CacheStore α :=
  fun k => if k = key then none else store k

/-- `ContentCacheService.exists(key)`. -/
def existsKey {α : Type} (store : CacheStore α) (key : String) : Bool :=
  (store key).isSome

/-- `ContentCacheService.is_expired(key)`: missing file counts as expired;
otherwise `datetime.now() > expires_at` (strict). -/
def is_expired {α : Type} (store : CacheStore α) (now : Nat) (key : String) : Bool :=
  match store key with
  | none => true
  | some d => decide (d.expires_at < now)

end ContentCacheService

/-- Outcome of one `self.client.messages.create(...)` round trip:
either the extracted text plus token usage, or a raised exception. -/
inductive ApiOutcome : Type
  | success (content : String) (input_tokens output_tokens : Nat)
  | failure (err : String)
  deriving DecidableEq, Repr

/-- The decoded form of the JSON string `_call_claude_api` returns:
`{"content": ..., "usage": {"input_tokens": ..., "output_tokens": ...}}`.
`json.dumps`/`json.loads` round-trip exactly, so the model passes the
structure instead of its serialization. -/
structure ApiResponse where
  content : String
  input_tokens : Nat
  output_tokens : Nat
  deriving DecidableEq, Repr

namespace ClaudeAIService

/-- The canned response returned when `self.client is None`. -/
def mockResponse : ApiResponse :=
  { content := "Mock Claude response - client not available",
    input_tokens := 100, output_tokens := 200 }

/-- The canned response built by the `except Exception` handler of
`_call_claude_api`. -/
def fallbackResponse : ApiResponse :=
  { content := "Error generating content with Claude API",
    input_tokens := 0, output_tokens := 0 }

/-- `ClaudeAIService._call_claude_api(prompt)`.

`attempts n` is the outcome the external endpoint would give to the n-th
call issued for this prompt; the source issues the call once (attempt 0)
and has no retry loop, which the model makes visible by consuming only
`attempts 0`. The integrity check raised inside the `try` block is caught
by the same `except Exception` handler as a transport failure, so both
paths return `fallbackResponse` instead of raising. Monitoring calls do
not affect the returned value and are modelled separately. -/
def call_claude_api (client_available : Bool) (watchdog_active : Bool)
    (attempts : Nat → ApiOutcome) : ApiResponse :=
  if !client_available then mockResponse
  else
    match attempts 0 with
    | .failure _ => fallbackResponse
    | .success content i o =>
      if content ≠ "" ∧ watchdog_active then
        if 50 < stripLen content then
          match ContentIntegrityWatchdog.validate_text_content watchdog_active
              "ai_response" content with
          | .error _ => fallbackResponse
          | .ok _ => ⟨content, i, o⟩
        else ⟨content, i, o⟩
      else ⟨content, i, o⟩

/-- `ClaudeAIService._parse_section_content_response(response)` after
decoding: return the content field when non-empty, else the canned
parse-failure text (`json.loads` of the JSON produced by
`_call_claude_api` cannot itself fail, so that handler is unreachable). -/
def parse_section_content_response (r : ApiResponse) : String :=
  if r.content ≠ "" ∧ (stripList r.content.data).head? ≠ some '\x7b' then r.content
  else if r.content ≠ "" then r.content
  else "Content generation failed"

/-- A per-section `generate_*` method (`generate_introduction` etc.): build
the prompt, call `_call_claude_api`, parse the section content. The prompt
text does not influence the returned value, so it is not a parameter. -/
def generate_section_content (client_available : Bool) (watchdog_active : Bool)
    (attempts : Nat → ApiOutcome) : String :=
  parse_section_content_response (call_claude_api client_available watchdog_active attempts)

end ClaudeAIService

/-- The exception classes that cross the orchestrator boundaries:
`ContentQualityError` (whose subclass `ContentIntegrityError` the
per-section handlers catch first), `ExternalServiceError`, and any other
`Exception`. -/
inductive PyError : Type
  | quality
  | service
  | other
  deriving DecidableEq, Repr

namespace CompleteCampaignGenerationService

open ContentIntegrityWatchdog ContentCacheService

/-- `f"section_{section_id}_{campaign.id}"`. -/
def cacheKeyFor (section_id campaign_id : String) : String :=
  "section_" ++ section_id ++ "_" ++ campaign_id

/-- The generation half of `_generate_section_with_cache`: call the
generator, validate non-empty content (a violation raises
`ContentIntegrityError`, a `ContentQualityError` subclass), then write
through to the content cache with `ttl_seconds=3600`; empty content skips
both validation and the write and yields the canned error section text. -/
def generate_section_fresh (watchdog_active : Bool) (store : CacheStore String)
    (now : Nat) (campaign_id section_id title : String)
    (genResult : Except PyError String) :
    Except PyError (CampaignSection × CacheStore String) :=
  match genResult with
  | .error e => .error e
  | .ok content =>
    if content = "" then
      .ok (⟨section_id, title, "Error generating " ++ title ++ " section", []⟩, store)
    else
      match validate_text_content watchdog_active section_id content with
      | .error _ => .error .quality
      | .ok _ =>
        .ok (⟨section_id, title, content, []⟩,
             ContentCacheService.set store now (cacheKeyFor section_id campaign_id)
               content 3600)

/-- `CompleteCampaignGenerationService._generate_section_with_cache`: on a
cache hit re-validate the cached text; a hit that fails re-validation
falls through to generation (the source logs a warning, performs no
delete, and surfaces no error for the failure). An empty cached string is
falsy in Python and is treated as a miss. -/
def generate_section_with_cache (watchdog_active : Bool) (store : CacheStore String)
    (now : Nat) (campaign_id section_id title : String)
    (genResult : Except PyError String) :
    Except PyError (CampaignSection × CacheStore String) :=
  match ContentCacheService.get store (cacheKeyFor section_id campaign_id) with
  | some cached =>
    if cached = "" then
      generate_section_fresh watchdog_active store now campaign_id section_id title genResult
    else
      match validate_text_content watchdog_active section_id cached with
      | .ok _ => .ok (⟨section_id, title, cached, []⟩, store)
      | .error _ =>
        generate_section_fresh watchdog_active store now campaign_id section_id title genResult
  | none =>
    generate_section_fresh watchdog_active store now campaign_id section_id title genResult

/-- Canned section text of the `except ContentQualityError` handler in
`_generate_all_sections`. -/
def qualityFallbackText : String :=
  "Content generation had quality issues. Please regenerate this section."

/-- Canned section text of the `except ExternalServiceError` handler. -/
def serviceFallbackText : String :=
  "Service temporarily unavailable. Please try regenerating this section later."

/-- Canned section text of the final `except Exception` handler. -/
def unexpectedFallbackText : String :=
  "An unexpected error occurred while generating this section. Please try again."

/-- The canned section text chosen by the per-section exception handlers
of `_generate_all_sections`, by exception class. -/
def errorFallbackText : PyError → String
  | .quality => qualityFallbackText
  | .service => serviceFallbackText
  | .other => unexpectedFallbackText

/-- The sample-mode `sections_config` of `_generate_all_sections`
(section id, title); the generator callables live in the `gen` oracle. -/
def sampleSectionsConfig : List (String × String) :=
  [("introduction", "Introduction"), ("setting", "The World"),
   ("background", "Adventure Background"), ("structure", "Campaign Structure"),
   ("locations", "Key Locations"), ("npcs", "Key NPCs")]

/-- `CompleteCampaignGenerationService._generate_all_sections`: for each
configured section run `_generate_section_with_cache`; a raised error is
caught per section and replaced by the matching canned fallback section,
and a returned section whose content strips to empty likewise becomes the
quality fallback. `gen sid` is the awaited result of the generator
callable for section `sid` (custom instructions and mode only shape the
prompt). -/
def generate_all_sections (watchdog_active : Bool) (store : CacheStore String)
    (now : Nat) (campaign_id : String) (gen : String → Except PyError String) :
    List (String × String) → List CampaignSection × CacheStore String
  | [] => ([], store)
  | (section_id, title) :: rest =>
    match generate_section_with_cache watchdog_active store now campaign_id
        section_id title (gen section_id) with
    | .ok (s, store') =>
      ((if stripLen s.content = 0 then ⟨section_id, title, qualityFallbackText, []⟩
        else s) ::
        (generate_all_sections watchdog_active store' now campaign_id gen rest).1,
       (generate_all_sections watchdog_active store' now campaign_id gen rest).2)
    | .error e =>
      (⟨section_id, title, errorFallbackText e, []⟩ ::
        (generate_all_sections watchdog_active store now campaign_id gen rest).1,
       (generate_all_sections watchdog_active store now campaign_id gen rest).2)

/-- The concept block of `generate_campaign`: cache lookup, re-validation of
a hit (an invalid hit is discarded, not deleted), regeneration on miss with
immediate validation and a 3600-second write-through. Both the validation
raise and a generator raise are converted to `ExternalServiceError` by the
enclosing `except Exception` handler. -/
def concept_cached_valid (watchdog_active : Bool) (store : CacheStore CampaignConcept)
    (key : String) : Option CampaignConcept :=
  match ContentCacheService.get store key with
  | some c =>
    if isError (validate_campaign_concept watchdog_active c) then none else some c
  | none => none

def concept_phase (watchdog_active : Bool) (store : CacheStore CampaignConcept)
    (now : Nat) (key : String) (genConcept : Except PyError CampaignConcept) :
    Except PyError (CampaignConcept × CacheStore CampaignConcept) :=
  match concept_cached_valid watchdog_active store key with
  | some c => .ok (c, store)
  | none =>
    match genConcept with
    | .error _ => .error .service
    | .ok c =>
      match validate_campaign_concept watchdog_active c with
      | .error _ => .error .service
      | .ok _ => .ok (c, ContentCacheService.set store now key c 3600)

/-- The tail of `generate_campaign`: the single whole-artifact integrity
pass over the assembled campaign; a violation re-raises out of
`generate_campaign`, otherwise the status becomes `COMPLETED`. -/
def finalize_campaign (watchdog_active : Bool) (c : Campaign) : Except PyError Campaign :=
  match ContentIntegrityWatchdog.validate_entire_campaign watchdog_active c with
  | .error _ => .error .quality
  | .ok _ => .ok { c with status := .completed }

/-- `CompleteCampaignGenerationService.generate_campaign`, restricted to the
steps the claims observe: concept phase, section generation, final
whole-artifact validation, status update. Preference/campaign-data
validation, story arcs, NPCs, locations, images and metric tracking are
omitted: none of them writes the content cache or affects the returned
status, and their failure modes are additional `.error` exits. -/
def generate_campaign (watchdog_active : Bool)
    (conceptStore : CacheStore CampaignConcept) (contentStore : CacheStore String)
    (now : Nat) (conceptKey campaign_id : String)
    (genConcept : Except PyError CampaignConcept)
    (gen : String → Except PyError String)
    (sectionsConfig : List (String × String)) (freeform : Option String) :
    Except PyError (Campaign × CacheStore CampaignConcept × CacheStore String) :=
  match concept_phase watchdog_active conceptStore now conceptKey genConcept with
  | .error e => .error e
  | .ok (concept, conceptStore') =>
    match finalize_campaign watchdog_active
        { name := concept.title.getD "", description := concept.description.getD "",
          sections := (generate_all_sections watchdog_active contentStore now campaign_id
            gen sectionsConfig).1,
          playerFreeform := freeform, status := .generating } with
    | .error e => .error e
    | .ok c =>
      .ok (c, conceptStore',
        (generate_all_sections watchdog_active contentStore now campaign_id
          gen sectionsConfig).2)

end CompleteCampaignGenerationService

/-- `watchdog_service.MetricType` (the members `track_api_call` appends). -/
inductive MetricType : Type
  | generation_time
  | quality_score
  | api_latency
  | token_usage
  | error_rate
  | regeneration_rate
  | cost
  deriving DecidableEq, Repr

/-- `watchdog_service.Metric`, with `value` as `Rat` (a Python float) and the
wall-clock `timestamp` and free-form `details` dict omitted: no claim
observes them and they carry no program logic. -/
structure Metric where
  metric_type : MetricType
  value : Rat
  component : String
  deriving DecidableEq, Repr

namespace WatchdogService

/-- The mutable state of a `WatchdogService`: the metric log and the
`api_calls` / `cost_estimates` dicts (insertion-ordered association
lists). Alerts, the error counter and the content verifier are carried by
the real object but not read by the validated claims. -/
structure State where
  metrics : List Metric
  api_calls : List (String × Nat)
  cost_estimates : List (String × Rat)
  deriving DecidableEq, Repr

/-- The state built by `WatchdogService.__init__` (a fresh service). -/
def initState : State :=
  { metrics := [],
    api_calls := [("claude", 0), ("chatgpt", 0), ("dalle", 0)],
    cost_estimates := [("claude", 0), ("chatgpt", 0), ("dalle", 0), ("total", 0)] }

/-- `WatchdogService.track_metric`: append one metric to the log (periodic
disk flushes do not change the in-memory state). -/
def track_metric (st : State) (metric_type : MetricType) (value : Rat)
    (component : String) : State :=
  { st with metrics := st.metrics ++ [⟨metric_type, value, component⟩] }

/-- `WatchdogService.track_api_call(api_name, token_count, response_time,
cost=None)`: bump the per-API call counter (starting it at 1 for an unseen
name), append token-usage and latency metrics, and when a cost is supplied
append a cost metric and accumulate it into `cost_estimates[api_name]` and
`cost_estimates["total"]` (the `"total"` key always exists from
`__init__`). -/
def track_api_call (st : State) (api_name : String) (token_count : Nat)
    (response_time : Rat) (cost : Option Rat) : State :=
  let api_calls := match dictGet st.api_calls api_name with
    | some n => dictSet st.api_calls api_name (n + 1)
    | none => dictSet st.api_calls api_name 1
  let st := { st with api_calls := api_calls }
  let st := track_metric st .token_usage (token_count : Rat) api_name
  let st := track_metric st .api_latency response_time api_name
  match cost with
  | none => st
  | some c =>
    let st := track_metric st .cost c api_name
    let ce := match dictGet st.cost_estimates api_name with
      | some x => dictSet st.cost_estimates api_name (x + c)
      | none => dictSet st.cost_estimates api_name c
    let ce := dictSet ce "total" ((dictGet ce "total").getD 0 + c)
    { st with cost_estimates := ce }

/-- `get_api_usage_summary()["total_calls"]`: `sum(self.api_calls.values())`. -/
def summary_total_calls (st : State) : Nat :=
  (st.api_calls.map Prod.snd).sum

/-- `get_api_usage_summary()["total_estimated_cost"]`:
`self.cost_estimates["total"]` (present from `__init__` on). -/
def summary_total_cost (st : State) : Rat :=
  (dictGet st.cost_estimates "total").getD 0

/-- One recorded `track_api_call` invocation. -/
structure ApiCall where
  api_name : String
  token_count : Nat
  response_time : Rat
  cost : Option Rat
  deriving DecidableEq, Repr

/-- Replay a sequence of `track_api_call` invocations on a state. -/
def runCalls (st : State) (calls : List ApiCall) : State :=
  calls.foldl (fun s c => track_api_call s c.api_name c.token_count c.response_time c.cost) st

end WatchdogService

/-! ## Helper lemmas -/

namespace ContentIntegrityWatchdog

theorem dictGet_getD_ge (l : List (String × Nat)) (k : String) (d : Nat)
    (h : ∀ p ∈ l, d ≤ p.2) : d ≤ (dictGet l k).getD d := by
  induction l with
  | nil => simp [dictGet]
  | cons p t ih =>
    obtain ⟨k', v⟩ := p
    simp only [dictGet]
    split
    · simpa using h (k', v) (List.mem_cons_self _ _)
    · exact ih fun q hq => h q (List.mem_cons_of_mem _ hq)

/-- Every entry of the minimum-length table is at least 100, hence so is
every category minimum. -/
theorem min_section_length_ge (s : String) : 100 ≤ min_section_length s :=
  dictGet_getD_ge _ _ _ (by decide)

/-- `validate_text_content` either returns `ok True` or raises. -/
theorem validate_text_content_ok_or_raises (a : Bool) (sid c : String) :
    validate_text_content a sid c = .ok true ∨
    isError (validate_text_content a sid c) = true := by
  unfold validate_text_content
  split
  · left; rfl
  · split
    · right; rfl
    · split
      · right; rfl
      · split
        · right; rfl
        · split
          · right; rfl
          · left; rfl

/-- Characterization of the `raise` condition of `validate_text_content`
with the watchdog active: empty content, a matched forbidden pattern, a
stripped length below the category minimum, or fewer than five distinct
lowercase words. -/
theorem validate_text_content_isError_iff (sid content : String) :
    isError (validate_text_content true sid content) = true ↔
      (content = "" ∨
       (findForbidden forbidden_patterns (lowerStr content)).isSome = true ∨
       stripLen content < min_section_length sid ∨
       distinctWordCount content < 5) := by
  unfold validate_text_content
  simp only [Bool.not_true, Bool.false_eq_true, if_false]
  split
  · simp_all [isError]
  · split
    · rename_i hfind
      simp [isError, hfind]
    · rename_i hfind
      simp only [hfind, Option.isSome_none]
      split
      · simp_all [isError]
      · split <;> simp_all [isError]

/-- A successfully validated text meets the category length minimum. -/
theorem validate_text_content_ok_minLength (sid c : String)
    (h : validate_text_content true sid c = .ok true) :
    min_section_length sid ≤ stripLen c := by
  by_contra hlt
  have : isError (validate_text_content true sid c) = true :=
    (validate_text_content_isError_iff sid c).mpr (Or.inr (Or.inr (Or.inl (by omega))))
  rw [h] at this
  simp [isError] at this

/-- `ok True` is exactly the no-raise outcome of `validate_text_content`. -/
theorem validate_text_content_ok_iff (a : Bool) (sid c : String) :
    validate_text_content a sid c = .ok true ↔
    isError (validate_text_content a sid c) = false := by
  constructor
  · intro h; rw [h]; rfl
  · intro h
    rcases validate_text_content_ok_or_raises a sid c with hok | herr
    · exact hok
    · rw [herr] at h; cases h

/-- If some section of the list fails text validation, the whole
`validate_sections` sweep raises. -/
theorem validate_sections_isError_of_mem (sections : List CampaignSection)
    (sec : CampaignSection) (hmem : sec ∈ sections)
    (hbad : isError (validate_text_content true sec.section_id sec.content) = true) :
    isError (validate_sections true sections) = true := by
  induction sections with
  | nil => cases hmem
  | cons s t ih =>
    rcases List.mem_cons.mp hmem with rfl | hmem'
    · unfold validate_sections
      split
      · simp [isError]
      · rename_i b heq
        rw [heq] at hbad
        simp [isError] at hbad
    · unfold validate_sections
      split
      · simp [isError]
      · split
        · simp [isError]
        · exact ih hmem'

/-- If any section of a campaign fails text validation, the whole-artifact
pass raises (with the watchdog active). -/
theorem validate_entire_campaign_isError_of_section (c : Campaign)
    (sec : CampaignSection) (hmem : sec ∈ c.sections)
    (hbad : isError (validate_text_content true sec.section_id sec.content) = true) :
    isError (validate_entire_campaign true c) = true := by
  unfold validate_entire_campaign
  simp only [Bool.not_true, Bool.false_eq_true, if_false]
  split
  · simp [isError]
  · split
    · simp [isError]
    · split
      · simp [isError]
      · rename_i b heq
        have := validate_sections_isError_of_mem c.sections sec hmem hbad
        rw [heq] at this
        simp [isError] at this

/-- The whole-artifact pass ignores the campaign status field. -/
theorem validate_entire_campaign_status (wd : Bool) (c : Campaign)
    (s : GenerationStatus) :
    validate_entire_campaign wd { c with status := s } =
    validate_entire_campaign wd c := by
  cases c; rfl

end ContentIntegrityWatchdog

/-! ## Concrete inputs used by counterexamples and witnesses -/

/-- A 160-character npc text with 60 distinct single- and two-letter words
and no forbidden substring (each forbidden pattern contains a run of at
least three non-space characters, which this text never has). -/
def npcSample : String :=
  "a b c d e f g h i j k l m n o p q r s za zb zc zd ze zf zg zh zi zj zk " ++
  "zl zm zn zo zp zq zr zs zt zu zv zw zx zy xa xb xc xd xe xf xg xh xi xj " ++
  "xk xl xm xn xo xp"

/-- An apology/refusal string long and varied enough to evade every rule of
`validate_text_content`: the static forbidden-substring list contains no
apology-specific phrase, the text is over 300 characters stripped, and it
has far more than five distinct words. -/
def apologyStr : String :=
  "i apologize, but i cannot create that campaign material for you. my " ++
  "policies do not allow me to continue with this request at the present " ++
  "moment. if there is another topic or a different kind of adventure you " ++
  "have in mind, please let me know and i will gladly assist with writing " ++
  "it in a future message. thank you for understanding my limits."

/-- A generated text that violates the integrity rules (it contains the
forbidden substring `placeholder`) while being well over the 50-character
validation threshold of `_call_claude_api`. -/
def badAiContent : String :=
  "this output is just a placeholder that was produced when the upstream " ++
  "generation service was unavailable to the caller."

/-- A generated text that passes `validate_text_content` for the
`ai_response` category (over 100 characters stripped, varied, and free of
forbidden substrings). -/
def goodAiContent : String :=
  "the silver river bends through ancient stone arches while merchants " ++
  "gather at dawn beneath tall banners, trading spice and tales from " ++
  "distant harbors."

/-- An introduction-section text passing `validate_text_content` for the
`introduction` category (over 200 characters stripped). -/
def goodIntroContent : String :=
  "the village of thornmere sits at the edge of a vast marsh where pale " ++
  "lights drift between reeds after dusk. travelers speak of a sunken " ++
  "chapel beneath the water, of bells that ring on windless nights, and " ++
  "of a warden who keeps an old promise."

/-- A campaign title long enough for the default 100-character minimum that
`validate_entire_campaign` applies to `campaign_title`. -/
def longTitle : String :=
  "the shattered crown of thornmere: a campaign of marsh lights, sunken " ++
  "bells, and the long debt of the warden house"

/-- A campaign description passing the default 100-character minimum. -/
def longDesc : String :=
  "a band of travelers is drawn into the marshes of thornmere, where a " ++
  "drowned chapel guards a crown that was never meant to surface. old " ++
  "promises, restless bells, and a warden with a divided heart stand " ++
  "between them and the truth."

/-- A cached section text that fails re-validation (contains `mock`). -/
def badCachedContent : String := "mock cached text"

/-! ## Further helper lemmas -/

namespace ContentIntegrityWatchdog

/-- `find?` over the pattern list succeeds exactly when some pattern
matches (`any`). -/
theorem findForbidden_isSome_iff_any (pats : List String) (cl : String) :
    (findForbidden pats cl).isSome = true ↔
    (pats.any fun p => containsSub (lowerStr p).data cl.data) = true := by
  induction pats with
  | nil => simp [findForbidden]
  | cons p t ih =>
    simp only [findForbidden, List.find?, List.any_cons]
    cases hp : containsSub (lowerStr p).data cl.data
    · simp only [hp, Bool.false_or]
      exact ih
    · simp [hp]

theorem stripLen_empty : stripLen "" = 0 := rfl

end ContentIntegrityWatchdog

/-! ## Claims -/

open ContentIntegrityWatchdog in
/-- C10: constructing the watchdog with `is_active = False` (or setting it
so via `set_active`) makes `validate_text_content`, `validate_image_prompt`,
`validate_entire_campaign` and `validate_campaign_concept` return `True`
for every input whatsoever — including empty strings and texts containing
forbidden placeholder patterns — so the whole integrity gate is bypassed. -/
theorem c10_inactive_watchdog_bypasses_all_validation
    (section_name content prompt : String) (camp : Campaign)
    (concept : CampaignConcept) :
    validate_text_content false section_name content = .ok true ∧
    validate_image_prompt false prompt = .ok true ∧
    validate_entire_campaign false camp = .ok true ∧
    validate_campaign_concept false concept = .ok true :=
  ⟨rfl, rfl, rfl, rfl⟩

/-- The content cache after `set(k, v, ttl=10)` performed at instant 0. -/
def c1Store : CacheStore String :=
  ContentCacheService.set (emptyCacheStore String) 0 "k" "v" 10

/-- C1 counterexample: at instant 100 the entry written at instant 0 with
`ttl = 10` is expired (`is_expired` reports it, and `0 + 10 < 100`), yet
`get` still returns the stored value rather than the miss the claim
requires — `get` performs no expiry check and removes nothing. -/
theorem c1_counterexample :
    ContentCacheService.is_expired c1Store 100 "k" = true ∧
    0 + 10 < 100 ∧
    ContentCacheService.get c1Store "k" = some "v" ∧
    ContentCacheService.get c1Store "k" ≠ none :=
  ⟨by decide, by decide, by decide, by decide⟩

/-- C1 amended: `set(k, v, ttl)` immediately followed by `get(k)` returns
`v`; but `get` consults no clock at all, so the same value is returned
after the ttl elapses — expiry is observable only through the separate
`is_expired` method, and `get` never removes an entry. -/
theorem c1_amended (store : CacheStore String) (now : Nat) (k v : String) (ttl : Nat) :
    ContentCacheService.get (ContentCacheService.set store now k v ttl) k = some v ∧
    ∀ now', ContentCacheService.is_expired (ContentCacheService.set store now k v ttl) now' k
      = decide (now + ttl < now') := by
  constructor
  · simp [ContentCacheService.get, ContentCacheService.set]
  · intro now'
    simp [ContentCacheService.is_expired, ContentCacheService.set]

open ContentIntegrityWatchdog in
/-- C4: with the watchdog active, `validate_text_content(category, text)`
raises exactly when the text is empty/whitespace (stripped length 0), its
stripped length is below the category minimum from the static table, it
contains (case-insensitively) a forbidden-list entry, or it has fewer than
five distinct lowercase words. In particular the description call on
`"this is placeholder text"` raises mentioning `placeholder`, and the
160-character npc text with 60 distinct words and no forbidden substring
passes. -/
theorem c4_validate_text_content_raise_characterization :
    (∀ category text : String,
      isError (validate_text_content true category text) = true ↔
        (stripLen text = 0 ∨
         stripLen text < min_section_length category ∨
         (forbidden_patterns.any fun p => substrOf (lowerStr p) (lowerStr text)) = true ∨
         distinctWordCount text < 5)) ∧
    (validate_text_content true "description" "this is placeholder text" =
       .error (.forbiddenPattern "placeholder" "description") ∧
     substrOf "placeholder"
       (CIError.forbiddenPattern "placeholder" "description").message = true) ∧
    (npcSample.length = 160 ∧ distinctWordCount npcSample = 60 ∧
     (forbidden_patterns.any fun p => substrOf (lowerStr p) (lowerStr npcSample)) = false ∧
     validate_text_content true "npc" npcSample = .ok true) := by
  refine ⟨fun category text => ?_, ⟨by decide, by decide⟩, by decide, by decide, by decide,
    by decide⟩
  rw [validate_text_content_isError_iff]
  have hmin := min_section_length_ge category
  have hfind := findForbidden_isSome_iff_any forbidden_patterns (lowerStr text)
  constructor
  · rintro (hempty | hsome | hshort | hvar)
    · subst hempty
      exact Or.inl rfl
    · exact Or.inr (Or.inr (Or.inl (hfind.mp hsome)))
    · exact Or.inr (Or.inl hshort)
    · exact Or.inr (Or.inr (Or.inr hvar))
  · rintro (hstrip | hshort | hany | hvar)
    · exact Or.inr (Or.inr (Or.inl (by omega)))
    · exact Or.inr (Or.inr (Or.inl hshort))
    · exact Or.inr (Or.inl (hfind.mpr hany))
    · exact Or.inr (Or.inr (Or.inr hvar))

namespace ClaudeAIService

/-- With a client configured, a failed first attempt yields the fallback
response. -/
theorem call_claude_api_failure_eq (wd : Bool) (a : Nat → ApiOutcome) (e : String)
    (he : a 0 = .failure e) :
    call_claude_api true wd a = fallbackResponse := by
  unfold call_claude_api
  rw [he]
  rfl

/-- With a client configured, the call reduces to the validation branch of
the successful first attempt. -/
theorem call_claude_api_success_eq (wd : Bool) (a : Nat → ApiOutcome) (c : String)
    (i o : Nat) (hatt : a 0 = .success c i o) :
    call_claude_api true wd a =
      (if c ≠ "" ∧ wd = true then
        if 50 < stripLen c then
          match ContentIntegrityWatchdog.validate_text_content wd "ai_response" c with
          | .error _ => fallbackResponse
          | .ok _ => ⟨c, i, o⟩
        else ⟨c, i, o⟩
      else ⟨c, i, o⟩) := by
  unfold call_claude_api
  rw [hatt]
  rfl

end ClaudeAIService

/-- An external-call oracle whose first (and every) attempt yields
integrity-violating content. -/
def c2Attempts : Nat → ApiOutcome := fun _ => .success badAiContent 10 20

/-- C2 counterexample: when the external response is content that fails the
integrity validator, `_call_claude_api` does not surface a typed error —
the raised `ContentIntegrityError` is swallowed by the `except Exception`
handler and the canned string `Error generating content with Claude API`
is returned as if it were generated content. -/
theorem c2_counterexample :
    isError (ContentIntegrityWatchdog.validate_text_content true "ai_response" badAiContent)
      = true ∧
    ClaudeAIService.call_claude_api true true c2Attempts = ClaudeAIService.fallbackResponse ∧
    ClaudeAIService.generate_section_content true true c2Attempts =
      "Error generating content with Claude API" :=
  ⟨by decide, by decide, by decide⟩

/-- C2 amended: the generator client never surfaces a typed error. On a
failing external call, and equally on a successful call whose content the
active validator rejects (non-empty, stripped length over 50), it returns
the fixed fallback response; with no client configured it returns the
fixed mock response. -/
theorem c2_amended (wd : Bool) (attempts : Nat → ApiOutcome) :
    (∀ e, attempts 0 = .failure e →
       ClaudeAIService.call_claude_api true wd attempts = ClaudeAIService.fallbackResponse) ∧
    (∀ c i o, attempts 0 = .success c i o → c ≠ "" → 50 < stripLen c →
       isError (ContentIntegrityWatchdog.validate_text_content wd "ai_response" c) = true →
       ClaudeAIService.call_claude_api true wd attempts = ClaudeAIService.fallbackResponse) ∧
    ClaudeAIService.call_claude_api false wd attempts = ClaudeAIService.mockResponse := by
  refine ⟨fun e he => ?_, fun c i o hatt hc hlen hbad => ?_, rfl⟩
  · exact ClaudeAIService.call_claude_api_failure_eq wd attempts e he
  · cases wd with
    | false =>
      rw [show isError (ContentIntegrityWatchdog.validate_text_content false "ai_response" c)
            = false from rfl] at hbad
      cases hbad
    | true =>
      rw [ClaudeAIService.call_claude_api_success_eq true attempts c i o hatt,
        if_pos ⟨hc, rfl⟩, if_pos hlen]
      cases hv : ContentIntegrityWatchdog.validate_text_content true "ai_response" c with
      | error e => rfl
      | ok b =>
        rw [hv] at hbad
        simp [isError] at hbad

/-- C2 amended witness: the three amended branches at concrete inputs —
one transient failure, one integrity-violating success, one missing
client. -/
theorem c2_amended_witness :
    ClaudeAIService.call_claude_api true true (fun _ => .failure "timeout")
      = ClaudeAIService.fallbackResponse ∧
    ClaudeAIService.call_claude_api true true c2Attempts = ClaudeAIService.fallbackResponse ∧
    ClaudeAIService.call_claude_api false true c2Attempts = ClaudeAIService.mockResponse :=
  ⟨(c2_amended true (fun _ => .failure "timeout")).1 "timeout" rfl,
   (c2_amended true c2Attempts).2.1 badAiContent 10 20 rfl (by decide) (by decide) (by decide),
   (c2_amended true c2Attempts).2.2⟩

/-- An oracle whose first attempt fails transiently and whose second
attempt would succeed with valid content — the input that separates
retry-once behavior from no-retry behavior. -/
def c3Attempts : Nat → ApiOutcome := fun n =>
  if n = 0 then .failure "timeout" else .success goodAiContent 10 10

/-- C3 counterexample: on a transient first failure the client does not
retry. A second attempt would have succeeded with content that passes
validation (as the unfailing oracle shows), yet the call returns the
canned fallback response; no `TransientProviderError` (a type absent from
the codebase) is surfaced. -/
theorem c3_counterexample :
    c3Attempts 0 = .failure "timeout" ∧
    c3Attempts 1 = .success goodAiContent 10 10 ∧
    ContentIntegrityWatchdog.validate_text_content true "ai_response" goodAiContent
      = .ok true ∧
    ClaudeAIService.call_claude_api true true c3Attempts = ClaudeAIService.fallbackResponse ∧
    ClaudeAIService.call_claude_api true true (fun _ => .success goodAiContent 10 10) =
      ⟨goodAiContent, 10, 10⟩ :=
  ⟨by decide, by decide, by decide, by decide, by decide⟩

/-- C3 amended: `_call_claude_api` issues exactly one external attempt —
its result depends only on attempt 0 — and a transient failure of that
single attempt yields the fixed fallback response instead of a retry or a
typed transient error. -/
theorem c3_amended (client_available wd : Bool) (a a' : Nat → ApiOutcome) :
    (a 0 = a' 0 → ClaudeAIService.call_claude_api client_available wd a =
       ClaudeAIService.call_claude_api client_available wd a') ∧
    (∀ e, a 0 = .failure e →
       ClaudeAIService.call_claude_api true wd a = ClaudeAIService.fallbackResponse) := by
  constructor
  · intro h
    unfold ClaudeAIService.call_claude_api
    rw [h]
  · intro e he
    exact ClaudeAIService.call_claude_api_failure_eq wd a e he

/-- C3 amended witness: single-attempt dependence and the fallback result
at the concrete failing-then-succeeding oracle. -/
theorem c3_amended_witness :
    ClaudeAIService.call_claude_api true true c3Attempts =
      ClaudeAIService.call_claude_api true true (fun _ => .failure "timeout") ∧
    ClaudeAIService.call_claude_api true true c3Attempts =
      ClaudeAIService.fallbackResponse :=
  ⟨(c3_amended true true c3Attempts (fun _ => .failure "timeout")).1 rfl,
   (c3_amended true true c3Attempts (fun _ => .failure "x")).2 "timeout" rfl⟩

/-- C8 counterexample: with no client configured the generate operation
returns the 43-character mock string, and after an external failure it
returns the 40-character fallback string — both far below the configured
minimum for the `introduction` kind (200) and below every other category
minimum (all at least 100). -/
theorem c8_counterexample :
    ClaudeAIService.generate_section_content false true (fun _ => .failure "ignored") =
      "Mock Claude response - client not available" ∧
    ClaudeAIService.generate_section_content true true (fun _ => .failure "boom") =
      "Error generating content with Claude API" ∧
    ("Mock Claude response - client not available" : String).length <
      ContentIntegrityWatchdog.min_section_length "introduction" ∧
    ("Error generating content with Claude API" : String).length <
      ContentIntegrityWatchdog.min_section_length "ai_response" :=
  ⟨by decide, by decide, by decide, by decide⟩

/-- C8 amended: there is no global minimum-length guarantee — the mock and
fallback strings are shorter than every category minimum, and successful
content of stripped length at most 50 bypasses validation entirely. The
only guarantee: a successful attempt with active watchdog and stripped
content length over 50 that does not end in the fallback response returns
the external content itself, which then meets the 100-character
`ai_response` minimum. -/
theorem c8_amended (a : Nat → ApiOutcome) (c : String) (i o : Nat)
    (hatt : a 0 = .success c i o) (hlen : 50 < stripLen c)
    (hne : ClaudeAIService.call_claude_api true true a ≠ ClaudeAIService.fallbackResponse) :
    (ClaudeAIService.call_claude_api true true a).content = c ∧ 100 ≤ stripLen c := by
  have hc : c ≠ "" := by
    intro h
    rw [h, ContentIntegrityWatchdog.stripLen_empty] at hlen
    omega
  rw [ClaudeAIService.call_claude_api_success_eq true a c i o hatt,
    if_pos ⟨hc, rfl⟩, if_pos hlen] at hne ⊢
  cases hv : ContentIntegrityWatchdog.validate_text_content true "ai_response" c with
  | error e =>
    rw [hv] at hne
    exact absurd rfl hne
  | ok b =>
    have hok : ContentIntegrityWatchdog.validate_text_content true "ai_response" c
        = .ok true := by
      rcases ContentIntegrityWatchdog.validate_text_content_ok_or_raises true "ai_response" c
        with hk | hk
      · exact hk
      · rw [hv] at hk
        simp [isError] at hk
    have hmin := ContentIntegrityWatchdog.validate_text_content_ok_minLength "ai_response" c hok
    rw [show ContentIntegrityWatchdog.min_section_length "ai_response" = 100 from by decide]
      at hmin
    exact ⟨rfl, hmin⟩

/-- C8 amended witness: a concrete 150-character valid content is returned
unchanged and meets the 100-character floor. -/
theorem c8_amended_witness :
    (ClaudeAIService.call_claude_api true true
       (fun _ => .success goodAiContent 10 10)).content = goodAiContent ∧
    100 ≤ stripLen goodAiContent :=
  c8_amended (fun _ => .success goodAiContent 10 10) goodAiContent 10 10 rfl
    (by decide) (by decide)

/-- The cache key of the `introduction` section of campaign `camp1`. -/
def c7Key : String := CompleteCampaignGenerationService.cacheKeyFor "introduction" "camp1"

/-- A content store holding a stale entry for that key whose text fails
re-validation. -/
def c7Store : CacheStore String :=
  ContentCacheService.set (emptyCacheStore String) 0 c7Key badCachedContent 3600

open CompleteCampaignGenerationService in
/-- C7 counterexample: a cached section found at lookup fails re-validation;
the orchestrator proceeds as on a miss and surfaces no error for it, but it
never deletes the entry — after the call the failing cached content is
still retrievable from the content store under the same key, so the claimed
purge does not happen. -/
theorem c7_counterexample :
    ContentCacheService.get c7Store c7Key = some badCachedContent ∧
    isError (ContentIntegrityWatchdog.validate_text_content true "introduction"
      badCachedContent) = true ∧
    (match generate_section_with_cache true c7Store 5 "camp1" "introduction"
        "Introduction" (.ok "") with
     | .ok _ => true
     | .error _ => false) = true ∧
    (match generate_section_with_cache true c7Store 5 "camp1" "introduction"
        "Introduction" (.ok "") with
     | .ok (_, st) => ContentCacheService.get st c7Key
     | .error _ => none) = some badCachedContent :=
  ⟨by decide, by decide, by decide, by decide⟩

open ContentIntegrityWatchdog in
/-- C7 amended: a cached section that fails re-validation is treated exactly
as a cache miss (the call proceeds to generation and surfaces no error for
the re-validation failure), but the stale entry is not purged: no delete is
issued, so when nothing is regenerated (here: an empty generator result)
the store is returned unchanged, entry included. -/
theorem c7_amended (wd : Bool) (store : CacheStore String) (now : Nat)
    (campaign_id section_id title : String) (genResult : Except PyError String)
    (cached : String)
    (hget : ContentCacheService.get store
      (CompleteCampaignGenerationService.cacheKeyFor section_id campaign_id) = some cached)
    (hne : cached ≠ "")
    (hbad : isError (validate_text_content wd section_id cached) = true) :
    CompleteCampaignGenerationService.generate_section_with_cache wd store now campaign_id
        section_id title genResult
      = CompleteCampaignGenerationService.generate_section_fresh wd store now campaign_id
        section_id title genResult ∧
    (genResult = .ok "" →
      CompleteCampaignGenerationService.generate_section_with_cache wd store now campaign_id
          section_id title genResult
        = .ok (⟨section_id, title, "Error generating " ++ title ++ " section", []⟩, store)) := by
  have hMain : CompleteCampaignGenerationService.generate_section_with_cache wd store now
      campaign_id section_id title genResult
      = CompleteCampaignGenerationService.generate_section_fresh wd store now campaign_id
        section_id title genResult := by
    unfold CompleteCampaignGenerationService.generate_section_with_cache
    simp only [hget]
    rw [if_neg hne]
    cases hv : validate_text_content wd section_id cached with
    | error e => rfl
    | ok b =>
      rw [hv] at hbad
      simp [isError] at hbad
  refine ⟨hMain, fun hgen => ?_⟩
  rw [hMain, hgen]
  rfl

open CompleteCampaignGenerationService in
/-- C7 amended witness: the amended behavior at the concrete stale store. -/
theorem c7_amended_witness :
    generate_section_with_cache true c7Store 5 "camp1" "introduction" "Introduction" (.ok "")
      = generate_section_fresh true c7Store 5 "camp1" "introduction" "Introduction" (.ok "") ∧
    generate_section_with_cache true c7Store 5 "camp1" "introduction" "Introduction" (.ok "")
      = .ok (⟨"introduction", "Introduction",
          "Error generating " ++ "Introduction" ++ " section", []⟩, c7Store) := by
  have h := c7_amended true c7Store 5 "camp1" "introduction" "Introduction" (.ok "")
    badCachedContent (by decide) (by decide) (by decide)
  exact ⟨h.1, h.2 rfl⟩

/-! ### Monitoring-service lemmas (C9) -/

theorem dictGet_dictSet_self {α : Type} (l : List (String × α)) (k : String) (v : α) :
    dictGet (dictSet l k v) k = some v := by
  induction l with
  | nil => simp [dictGet, dictSet]
  | cons p t ih =>
    obtain ⟨k', v'⟩ := p
    by_cases h : k' = k
    · subst h
      simp [dictSet, dictGet]
    · simp [dictSet, dictGet, h, ih]

theorem dictGet_dictSet_ne {α : Type} (l : List (String × α)) (k k' : String) (v : α)
    (h : k ≠ k') : dictGet (dictSet l k v) k' = dictGet l k' := by
  induction l with
  | nil => simp [dictGet, dictSet, h]
  | cons p t ih =>
    obtain ⟨k₀, v₀⟩ := p
    by_cases h0 : k₀ = k
    · subst h0
      simp [dictSet, dictGet, h]
    · simp [dictSet, dictGet, h0, ih]

theorem sum_dictSet_of_get_some (l : List (String × Nat)) (k : String) (n : Nat)
    (h : dictGet l k = some n) :
    ((dictSet l k (n + 1)).map Prod.snd).sum = ((l.map Prod.snd).sum) + 1 := by
  induction l with
  | nil => simp [dictGet] at h
  | cons p t ih =>
    obtain ⟨k', v'⟩ := p
    by_cases hk : k' = k
    · subst hk
      simp [dictGet] at h
      subst h
      simp [dictSet]
      omega
    · simp only [dictGet, if_neg hk] at h
      simp [dictSet, hk, ih h]
      omega

theorem sum_dictSet_of_get_none (l : List (String × Nat)) (k : String)
    (h : dictGet l k = none) :
    ((dictSet l k 1).map Prod.snd).sum = (l.map Prod.snd).sum + 1 := by
  induction l with
  | nil => simp [dictSet]
  | cons p t ih =>
    obtain ⟨k', v'⟩ := p
    by_cases hk : k' = k
    · subst hk
      simp [dictGet] at h
    · simp only [dictGet, if_neg hk] at h
      simp [dictSet, hk, ih h]
      omega

namespace WatchdogService

theorem track_api_call_total_calls (st : State) (n : String) (t : Nat) (r : Rat)
    (c : Option Rat) :
    summary_total_calls (track_api_call st n t r c) = summary_total_calls st + 1 := by
  cases c with
  | none =>
    cases hd : dictGet st.api_calls n with
    | some m =>
      simp [track_api_call, track_metric, summary_total_calls, hd,
        sum_dictSet_of_get_some _ _ _ hd]
    | none =>
      simp [track_api_call, track_metric, summary_total_calls, hd,
        sum_dictSet_of_get_none _ _ hd]
  | some c =>
    cases hd : dictGet st.api_calls n with
    | some m =>
      simp [track_api_call, track_metric, summary_total_calls, hd,
        sum_dictSet_of_get_some _ _ _ hd]
    | none =>
      simp [track_api_call, track_metric, summary_total_calls, hd,
        sum_dictSet_of_get_none _ _ hd]

theorem track_api_call_total_cost_none (st : State) (n : String) (t : Nat) (r : Rat) :
    summary_total_cost (track_api_call st n t r none) = summary_total_cost st := by
  cases hd : dictGet st.api_calls n <;>
    simp [track_api_call, track_metric, summary_total_cost, hd]

theorem track_api_call_total_cost_some (st : State) (n : String) (t : Nat) (r : Rat)
    (c : Rat) (hn : n ≠ "total") :
    summary_total_cost (track_api_call st n t r (some c)) = summary_total_cost st + c := by
  cases hd : dictGet st.api_calls n <;>
    cases hce : dictGet st.cost_estimates n <;>
      simp [track_api_call, track_metric, summary_total_cost, hd, hce,
        dictGet_dictSet_self, dictGet_dictSet_ne _ _ _ _ hn]

theorem runCalls_totals (calls : List ApiCall) :
    ∀ st : State, (∀ a ∈ calls, a.api_name ≠ "total") →
    summary_total_calls (runCalls st calls) = summary_total_calls st + calls.length ∧
    summary_total_cost (runCalls st calls) =
      summary_total_cost st + (calls.filterMap ApiCall.cost).sum := by
  induction calls with
  | nil =>
    intro st _
    simp [runCalls]
  | cons a t ih =>
    intro st h
    have ha := h a (List.mem_cons_self _ _)
    have ht := fun b hb => h b (List.mem_cons_of_mem _ hb)
    have hrun : runCalls st (a :: t) =
        runCalls (track_api_call st a.api_name a.token_count a.response_time a.cost) t := by
      simp [runCalls]
    rw [hrun]
    obtain ⟨ih1, ih2⟩ := ih _ ht
    refine ⟨by rw [ih1, track_api_call_total_calls]; simp only [List.length_cons]; omega, ?_⟩
    rw [ih2]
    cases hc : a.cost with
    | none =>
      rw [track_api_call_total_cost_none]
      simp [List.filterMap_cons, hc]
    | some c =>
      rw [track_api_call_total_cost_some _ _ _ _ _ ha]
      simp only [List.filterMap_cons, hc, List.sum_cons]
      ring

end WatchdogService

/-- C9 counterexample: `track_api_call` with the provider name `total` —
the reserved aggregate key of `cost_estimates` — first adds the cost to
`cost_estimates["total"]` as the per-API bucket and then adds it again as
the aggregate, so after one call with cost 1/50 (= 0.02) the reported
total cost is 1/25 (= 0.04), not the sum of supplied costs; the call count
is still 1. -/
theorem c9_counterexample :
    WatchdogService.summary_total_calls
      (WatchdogService.track_api_call WatchdogService.initState "total" 10 1 (some (1/50)))
      = 1 ∧
    WatchdogService.summary_total_cost
      (WatchdogService.track_api_call WatchdogService.initState "total" 10 1 (some (1/50)))
      = 1/25 ∧
    (1/25 : Rat) ≠ 1/50 := by
  refine ⟨by decide, ?_, by norm_num⟩
  norm_num [WatchdogService.track_api_call, WatchdogService.track_metric,
    WatchdogService.summary_total_cost, WatchdogService.initState, dictGet, dictSet]
  simp only [String.reduceEq, reduceIte, Option.getD_some]
  norm_num

open WatchdogService in
/-- C9 amended: for any sequence of `track_api_call` invocations on a fresh
monitoring service in which no provider name is the reserved key `total`,
the usage summary reports exactly the number of invocations as
`total_calls` and the exact sum of the supplied (non-`None`) costs as
`total_estimated_cost`. -/
theorem c9_amended (calls : List ApiCall)
    (h : ∀ a ∈ calls, a.api_name ≠ "total") :
    summary_total_calls (runCalls initState calls) = calls.length ∧
    summary_total_cost (runCalls initState calls) = (calls.filterMap ApiCall.cost).sum := by
  obtain ⟨h1, h2⟩ := runCalls_totals calls initState h
  refine ⟨?_, ?_⟩
  · rw [h1, show summary_total_calls initState = 0 from by decide]
    omega
  · rw [h2, show summary_total_cost initState = 0 from by decide]
    ring

open WatchdogService in
/-- C9 amended witness: `track_api_call("providerA", 500, 5/2, 1/50)` on a
fresh service yields `total_calls = 1` and total cost `1/50` (= 0.02). -/
theorem c9_amended_witness :
    summary_total_calls (runCalls initState [⟨"providerA", 500, 5/2, some (1/50)⟩]) = 1 ∧
    summary_total_cost (runCalls initState [⟨"providerA", 500, 5/2, some (1/50)⟩]) = 1/50 := by
  have h := c9_amended [⟨"providerA", 500, 5/2, some (1/50)⟩]
    (by
      intro a ha
      rcases List.mem_singleton.mp ha with rfl
      decide)
  refine ⟨h.1, ?_⟩
  rw [h.2]
  simp

/-! ### Orchestrator lemmas (C5, C6) -/

namespace ContentIntegrityWatchdog

/-- `validate_campaign_concept` either returns `ok True` or raises. -/
theorem validate_campaign_concept_ok_or_raises (a : Bool) (c : CampaignConcept) :
    validate_campaign_concept a c = .ok true ∨
    isError (validate_campaign_concept a c) = true := by
  unfold validate_campaign_concept
  split
  · left; rfl
  · split
    · right; rfl
    · split
      · right; rfl
      · split
        · right; rfl
        · split
          · right; rfl
          · split
            · right; rfl
            · split
              · exact validate_text_content_ok_or_raises _ _ _
              · left; rfl

/-- Any text whose stripped length is below 100 fails active validation for
every category (all category minimums are at least 100). -/
theorem short_text_fails (sid msg : String) (h : stripLen msg < 100) :
    isError (validate_text_content true sid msg) = true := by
  rw [validate_text_content_isError_iff]
  have := min_section_length_ge sid
  exact Or.inr (Or.inr (Or.inl (by omega)))

end ContentIntegrityWatchdog

namespace CompleteCampaignGenerationService

open ContentIntegrityWatchdog

/-- All three canned fallback texts are below every category minimum. -/
theorem errorFallbackText_short (e : PyError) : stripLen (errorFallbackText e) < 100 := by
  cases e <;> decide

/-- Every store mutation performed by the generation half of
`_generate_section_with_cache` is a validated 3600-second write-through at
the section cache key. -/
theorem generate_section_fresh_write (wd : Bool) (store : CacheStore String) (now : Nat)
    (cid sid title : String) (genR : Except PyError String)
    (sec : CampaignSection) (store' : CacheStore String) (k : String)
    (hok : generate_section_fresh wd store now cid sid title genR = .ok (sec, store'))
    (hchanged : store' k ≠ store k) :
    ∃ c, store' k = some ⟨c, now, 3600, now + 3600⟩ ∧
      validate_text_content wd sid c = .ok true ∧
      k = cacheKeyFor sid cid := by
  unfold generate_section_fresh at hok
  split at hok
  · cases hok
  · rename_i content
    split at hok
    · cases hok
      exact absurd rfl hchanged
    · split at hok
      · cases hok
      · rename_i hvneq b hval
        cases hok
        by_cases hk : k = cacheKeyFor sid cid
        · subst hk
          refine ⟨content, ?_, ?_, rfl⟩
          · simp [ContentCacheService.set]
          · rcases validate_text_content_ok_or_raises wd sid content with h | h
            · exact h
            · rw [hval] at h
              simp [isError] at h
        · exact absurd (by simp [ContentCacheService.set, hk]) hchanged

/-- C5 part (a): every store mutation performed by
`_generate_section_with_cache` holds content that passed
`validate_text_content` at the moment of the write. -/
theorem generate_section_with_cache_write (wd : Bool) (store : CacheStore String)
    (now : Nat) (cid sid title : String) (genR : Except PyError String)
    (sec : CampaignSection) (store' : CacheStore String) (k : String)
    (hok : generate_section_with_cache wd store now cid sid title genR = .ok (sec, store'))
    (hchanged : store' k ≠ store k) :
    ∃ c, store' k = some ⟨c, now, 3600, now + 3600⟩ ∧
      validate_text_content wd sid c = .ok true ∧
      k = cacheKeyFor sid cid := by
  unfold generate_section_with_cache at hok
  split at hok
  · split at hok
    · exact generate_section_fresh_write wd store now cid sid title genR sec store' k
        hok hchanged
    · split at hok
      · cases hok
        exact absurd rfl hchanged
      · exact generate_section_fresh_write wd store now cid sid title genR sec store' k
          hok hchanged
  · exact generate_section_fresh_write wd store now cid sid title genR sec store' k
      hok hchanged

/-- C5 part (b): every store mutation performed by the concept phase holds
a concept that passed `validate_campaign_concept` at the moment of the
write. -/
theorem concept_phase_write (wd : Bool) (store : CacheStore CampaignConcept) (now : Nat)
    (key : String) (genC : Except PyError CampaignConcept)
    (concept : CampaignConcept) (store' : CacheStore CampaignConcept) (k : String)
    (hok : concept_phase wd store now key genC = .ok (concept, store'))
    (hchanged : store' k ≠ store k) :
    ∃ c, store' k = some ⟨c, now, 3600, now + 3600⟩ ∧
      validate_campaign_concept wd c = .ok true ∧
      k = key := by
  unfold concept_phase at hok
  split at hok
  · cases hok
    exact absurd rfl hchanged
  · split at hok
    · cases hok
    · split at hok
      · cases hok
      · rename_i b hval
        cases hok
        by_cases hk : k = key
        · subst hk
          refine ⟨concept, ?_, ?_, rfl⟩
          · simp [ContentCacheService.set]
          · rcases validate_campaign_concept_ok_or_raises wd concept with h | h
            · exact h
            · rw [hval] at h
              simp [isError] at h
        · exact absurd (by simp [ContentCacheService.set, hk]) hchanged

/-- C5 part (c): if the generator yields, for every section, non-empty
content that the active validator rejects, then a run over an empty
content store writes nothing, every assembled section carries one of the
canned fallback texts (all of which fail validation), and any campaign
assembled from a non-empty run fails the whole-artifact pass. -/
theorem generate_all_sections_rejected (now : Nat) (cid : String)
    (gen : String → Except PyError String)
    (hgen : ∀ sid s, gen sid = .ok s →
      s ≠ "" ∧ isError (validate_text_content true sid s) = true) :
    ∀ cfg : List (String × String),
    (generate_all_sections true (emptyCacheStore String) now cid gen cfg).2 =
      emptyCacheStore String ∧
    (∀ sec ∈ (generate_all_sections true (emptyCacheStore String) now cid gen cfg).1,
      isError (validate_text_content true sec.section_id sec.content) = true) := by
  intro cfg
  induction cfg with
  | nil => exact ⟨rfl, by intro sec h; cases h⟩
  | cons p rest ih =>
    obtain ⟨sid, title⟩ := p
    have hwc : generate_section_with_cache true (emptyCacheStore String) now cid sid title
        (gen sid) = generate_section_fresh true (emptyCacheStore String) now cid sid title
        (gen sid) := rfl
    have hstep : ∃ e, generate_section_with_cache true (emptyCacheStore String) now cid sid
        title (gen sid) = .error e := by
      rw [hwc]
      cases hg : gen sid with
      | error e =>
        refine ⟨e, ?_⟩
        unfold generate_section_fresh
        rfl
      | ok s =>
        obtain ⟨hs, hbad⟩ := hgen sid s hg
        refine ⟨.quality, ?_⟩
        unfold generate_section_fresh
        simp only [if_neg hs]
        cases hv : validate_text_content true sid s with
        | error e => rfl
        | ok b =>
          rw [hv] at hbad
          simp [isError] at hbad
    obtain ⟨e, he⟩ := hstep
    have hcons : generate_all_sections true (emptyCacheStore String) now cid gen
        ((sid, title) :: rest) =
        (⟨sid, title, errorFallbackText e, []⟩ ::
          (generate_all_sections true (emptyCacheStore String) now cid gen rest).1,
         (generate_all_sections true (emptyCacheStore String) now cid gen rest).2) := by
      simp only [generate_all_sections, he]
    refine ⟨by rw [hcons]; exact ih.1, ?_⟩
    intro sec hmem
    rw [hcons] at hmem
    rcases List.mem_cons.mp hmem with rfl | hmem'
    · exact short_text_fails _ _ (errorFallbackText_short e)
    · exact ih.2 sec hmem'

end CompleteCampaignGenerationService

/-- The generator oracle of the C5 scenario: every section request yields
the same apology/refusal string. -/
def apologyGen : String → Except PyError String := fun _ => .ok apologyStr

open CompleteCampaignGenerationService in
/-- C5 counterexample: the generator always returns an apology/refusal
string (`i apologize, but i cannot create ...`), yet because the static
forbidden-substring list contains no apology-specific phrase the string
passes validation, and a full sample-mode section run over an empty store
writes it into the content cache — a cache entry is written for the
`introduction` section, contradicting the claimed scenario outcome. -/
theorem c5_counterexample :
    substrOf "apologize" apologyStr = true ∧
    substrOf "i cannot" apologyStr = true ∧
    (generate_all_sections true (emptyCacheStore String) 0 "camp1" apologyGen
        sampleSectionsConfig).2 (cacheKeyFor "introduction" "camp1") =
      some ⟨apologyStr, 0, 3600, 3600⟩ :=
  ⟨by decide, by decide, by decide⟩

open CompleteCampaignGenerationService ContentIntegrityWatchdog in
/-- C5 amended: (a) every entry written to the content cache by the
per-section write-through passed `validate_text_content` at the time of
the write, and (b) every concept-cache entry passed
`validate_campaign_concept`; (c) when the generator yields, for every
section, non-empty content that the active validator rejects (which an
apology string satisfies only when it trips the heuristic rules — the
static list has no apology-specific phrase), no cache entry is written and
any campaign assembled from a non-empty run fails the final integrity
pass, so the orchestration errors. -/
theorem c5_amended :
    (∀ (wd : Bool) (store : CacheStore String) (now : Nat) (cid sid title : String)
       (genR : Except PyError String) (sec : CampaignSection)
       (store' : CacheStore String) (k : String),
      generate_section_with_cache wd store now cid sid title genR = .ok (sec, store') →
      store' k ≠ store k →
      ∃ c, store' k = some ⟨c, now, 3600, now + 3600⟩ ∧
        validate_text_content wd sid c = .ok true ∧ k = cacheKeyFor sid cid) ∧
    (∀ (wd : Bool) (store : CacheStore CampaignConcept) (now : Nat) (key : String)
       (genC : Except PyError CampaignConcept) (concept : CampaignConcept)
       (store' : CacheStore CampaignConcept) (k : String),
      concept_phase wd store now key genC = .ok (concept, store') →
      store' k ≠ store k →
      ∃ c, store' k = some ⟨c, now, 3600, now + 3600⟩ ∧
        validate_campaign_concept wd c = .ok true ∧ k = key) ∧
    (∀ (now : Nat) (cid : String) (gen : String → Except PyError String),
      (∀ sid s, gen sid = .ok s →
        s ≠ "" ∧ isError (validate_text_content true sid s) = true) →
      ∀ cfg : List (String × String),
      (generate_all_sections true (emptyCacheStore String) now cid gen cfg).2 =
        emptyCacheStore String ∧
      (cfg ≠ [] → ∀ (nm ds : String) (ff : Option String) (stt : GenerationStatus),
        isError (validate_entire_campaign true
          ⟨nm, ds, (generate_all_sections true (emptyCacheStore String) now cid gen cfg).1,
           ff, stt⟩) = true)) := by
  refine ⟨generate_section_with_cache_write, concept_phase_write, ?_⟩
  intro now cid gen hgen cfg
  obtain ⟨hstore, hsecs⟩ := generate_all_sections_rejected now cid gen hgen cfg
  refine ⟨hstore, fun hne nm ds ff stt => ?_⟩
  cases cfg with
  | nil => exact absurd rfl hne
  | cons p rest =>
    obtain ⟨sid, title⟩ := p
    have hhead : ∃ sec secs,
        (generate_all_sections true (emptyCacheStore String) now cid gen
          ((sid, title) :: rest)).1 = sec :: secs := by
      cases hr : generate_section_with_cache true (emptyCacheStore String) now cid sid title
          (gen sid) with
      | ok pr =>
        obtain ⟨s, st'⟩ := pr
        refine ⟨(if stripLen s.content = 0 then ⟨sid, title, qualityFallbackText, []⟩
            else s),
          (generate_all_sections true st' now cid gen rest).1, ?_⟩
        simp only [generate_all_sections, hr]
      | error e =>
        refine ⟨⟨sid, title, errorFallbackText e, []⟩,
          (generate_all_sections true (emptyCacheStore String) now cid gen rest).1, ?_⟩
        simp only [generate_all_sections, hr]
    obtain ⟨sec, secs, hlist⟩ := hhead
    refine validate_entire_campaign_isError_of_section _ sec ?_ ?_
    · show sec ∈ (generate_all_sections true (emptyCacheStore String) now cid gen
        ((sid, title) :: rest)).1
      rw [hlist]
      exact List.mem_cons_self _ _
    · exact hsecs sec (by rw [hlist]; exact List.mem_cons_self _ _)

open CompleteCampaignGenerationService ContentIntegrityWatchdog in
/-- C5 amended witness: a validated write-through for a section and for the
concept, and the rejected-generator scenario at the sample configuration
with a generator that always returns placeholder-marked content. -/
theorem c5_amended_witness :
    (∃ c, ContentCacheService.set (emptyCacheStore String) 0
        (cacheKeyFor "introduction" "camp1") goodIntroContent 3600
        (cacheKeyFor "introduction" "camp1") = some ⟨c, 0, 3600, 0 + 3600⟩ ∧
      validate_text_content true "introduction" c = .ok true ∧
      cacheKeyFor "introduction" "camp1" = cacheKeyFor "introduction" "camp1") ∧
    ((generate_all_sections true (emptyCacheStore String) 0 "camp1"
        (fun _ => .ok badAiContent) sampleSectionsConfig).2 = emptyCacheStore String ∧
     isError (validate_entire_campaign true
       ⟨"t", "d", (generate_all_sections true (emptyCacheStore String) 0 "camp1"
          (fun _ => .ok badAiContent) sampleSectionsConfig).1, none, .generating⟩) = true) := by
  have hbadAll : ∀ sid s, (fun _ => Except.ok (ε := PyError) badAiContent) sid = .ok s →
      s ≠ "" ∧ isError (validate_text_content true sid s) = true := by
    intro sid s h
    cases h
    refine ⟨by decide, ?_⟩
    rw [validate_text_content_isError_iff]
    exact Or.inr (Or.inl (by decide))
  have ha := c5_amended.1 true (emptyCacheStore String) 0 "camp1" "introduction"
    "Introduction" (.ok goodIntroContent)
    ⟨"introduction", "Introduction", goodIntroContent, []⟩
    (ContentCacheService.set (emptyCacheStore String) 0
      (cacheKeyFor "introduction" "camp1") goodIntroContent 3600)
    (cacheKeyFor "introduction" "camp1") rfl (by decide)
  have hc := c5_amended.2.2 0 "camp1" (fun _ => .ok badAiContent) hbadAll
    sampleSectionsConfig
  exact ⟨ha, hc.1, hc.2 (by decide) "t" "d" none .generating⟩

/-- Projection of the orchestration result onto the returned campaign. -/
def resultCampaign :
    Except PyError (Campaign × CacheStore CampaignConcept × CacheStore String) →
    Option Campaign
  | .ok (c, _, _) => some c
  | .error _ => none

open CompleteCampaignGenerationService ContentIntegrityWatchdog in
/-- C6: after all section tasks resolve, the orchestrator runs the single
whole-artifact pass (`validate_entire_campaign` over title, description and
every section) before touching the status: any returned campaign has
status `COMPLETED` and passes the pass, and whenever the pass raises,
`finalize_campaign` (the tail of `generate_campaign`) surfaces the error —
so a partially assembled campaign is never returned as complete. -/
theorem c6_final_pass_gates_completion :
    (∀ (wd : Bool) (conceptStore : CacheStore CampaignConcept)
       (contentStore : CacheStore String) (now : Nat) (conceptKey cid : String)
       (genConcept : Except PyError CampaignConcept)
       (gen : String → Except PyError String) (cfg : List (String × String))
       (freeform : Option String) (c : Campaign),
      resultCampaign (generate_campaign wd conceptStore contentStore now conceptKey cid
        genConcept gen cfg freeform) = some c →
      c.status = .completed ∧ isError (validate_entire_campaign wd c) = false) ∧
    (∀ (wd : Bool) (c : Campaign),
      isError (validate_entire_campaign wd c) = true →
      finalize_campaign wd c = .error .quality) := by
  constructor
  · intro wd conceptStore contentStore now conceptKey cid genConcept gen cfg freeform c h
    unfold generate_campaign at h
    split at h
    · cases h
    · split at h
      · cases h
      · rename_i concept conceptStore' c2 hfin
        cases h
        unfold finalize_campaign at hfin
        split at hfin
        · cases hfin
        · rename_i b hval
          cases hfin
          refine ⟨rfl, ?_⟩
          rw [validate_entire_campaign_status]
          rw [hval]
          rfl
  · intro wd c hbad
    unfold finalize_campaign
    cases hv : validate_entire_campaign wd c with
    | error e => rfl
    | ok b =>
      rw [hv] at hbad
      simp [isError] at hbad

/-- The campaign concept of the C6 witness run. -/
def goodConcept : CampaignConcept := ⟨some longTitle, some longDesc, some "1-5", none⟩

/-- The campaign the C6 witness run returns. -/
def goodCampaign : Campaign :=
  ⟨longTitle, longDesc, [⟨"introduction", "Introduction", goodIntroContent, []⟩],
   none, .completed⟩

open CompleteCampaignGenerationService ContentIntegrityWatchdog in
/-- C6 witness: a concrete successful orchestration returns a campaign with
status `COMPLETED` that passes the whole-artifact pass, and a concrete
failing pass is surfaced as an error by the finalization step. -/
theorem c6_final_pass_gates_completion_witness :
    resultCampaign (generate_campaign true (emptyCacheStore CampaignConcept)
      (emptyCacheStore String) 0 "ckey" "camp1" (.ok goodConcept)
      (fun _ => .ok goodIntroContent) [("introduction", "Introduction")] none)
      = some goodCampaign ∧
    (goodCampaign.status = .completed ∧
     isError (validate_entire_campaign true goodCampaign) = false) ∧
    finalize_campaign true ⟨"", "", [], none, .generating⟩ = .error .quality := by
  refine ⟨by decide, ?_, ?_⟩
  · exact c6_final_pass_gates_completion.1 true (emptyCacheStore CampaignConcept)
      (emptyCacheStore String) 0 "ckey" "camp1" (.ok goodConcept)
      (fun _ => .ok goodIntroContent) [("introduction", "Introduction")] none
      goodCampaign (by decide)
  · exact c6_final_pass_gates_completion.2 true ⟨"", "", [], none, .generating⟩ (by decide)
